import Mathlib

/-!
Shallow embedding of the notebook `Lab9_Part2.1.ipynb`: the credential
resolver `get_secret`, the client-initialization line, and the completion
requester `openai_gpt_help`. External services (AWS Secrets Manager, the
OpenAI chat endpoint) are passed in as function parameters; Python
exceptions are modelled by an explicit error type, and observable effects
(the outbound requests, the pprint of the usage record) are recorded in
the result structures.
-/

/-- Python exception values that can arise in the notebook's code paths:
botocore `ClientError` from the secret store, `NameError` for an unbound
name, `KeyError` from dict subscripting, `IndexError` from list
subscripting, `ValueError` from `json.loads`, and OpenAI API errors. -/
inductive PyError where
  | clientError (code : String) (msg : String)
  | nameError (name : String)
  | keyError (key : String)
  | indexError (msg : String)
  | valueError (msg : String)
  | apiError (kind : String) (msg : String)
deriving DecidableEq

/-- The names bound at module level by the notebook's import cell:
`import boto3`, `import json`, `from IPython.display import display, Image,
Markdown`, `from openai import OpenAI`, `import pandas as pd`,
`from pprint import pprint`. Note that `ClientError` is NOT among them:
the notebook never runs `from botocore.exceptions import ClientError`. -/
def importedNames : List String :=
  ["boto3", "json", "display", "Image", "Markdown", "OpenAI", "pd", "pprint"]

/-- Whether a global name is bound in the notebook's module namespace. -/
def nameDefined (n : String) : Bool := importedNames.contains n

/-- Python dict subscripting `d[k]` on a string-to-string dict: the value
when the key is present, a `KeyError` otherwise. -/
def dictGet (d : List (String × String)) (k : String) : Except PyError String :=
  match d.lookup k with
  | some v => Except.ok v
  | none => Except.error (PyError.keyError k)

/-- JSON string-body escaping as applied to each character of a serialized
string: a quote or a backslash is preceded by a backslash, every other
character is kept as is. -/
def escapeChars : List Char → List Char
  | [] => []
  | c :: cs =>
      if c = '"' ∨ c = '\\' then '\\' :: c :: escapeChars cs
      else c :: escapeChars cs

/-- The serialized characters of one `"key":"value"` member of a flat JSON
object of strings. -/
def dumpPairChars (kv : String × String) : List Char :=
  '"' :: escapeChars kv.1.data ++ '"' :: ':' :: '"' :: escapeChars kv.2.data ++ ['"']

/-- The serialized characters of the members of a flat JSON object of
strings, including the closing brace (everything after the opening
brace). -/
def dumpMembers : List (String × String) → List Char
  | [] => ['}']
  | [kv] => dumpPairChars kv ++ ['}']
  | kv :: rest => dumpPairChars kv ++ ',' :: dumpMembers rest

/-- Serializer for a flat string-to-string JSON object, in the compact
form in which AWS Secrets Manager stores a key/value secret. Modelled
from the spec: the secret service stores "a serialized text blob"; the
serializer itself is outside the repository. -/
def json_dumps (b : List (String × String)) : String :=
  String.mk ('{' :: dumpMembers b)

/-- Parse the body of a serialized JSON string up to and including its
closing quote, undoing the escaping; returns the decoded characters and
the remaining input, or `none` on malformed input. -/
def parseStringChars : List Char → Option (List Char × List Char)
  | [] => none
  | ['\\'] => none
  | '\\' :: c2 :: rest2 =>
      if c2 = '"' ∨ c2 = '\\' then
        (parseStringChars rest2).map (fun p => (c2 :: p.1, p.2))
      else none
  | c :: rest =>
      if c = '"' then some ([], rest)
      else (parseStringChars rest).map (fun p => (c :: p.1, p.2))

/-- Parse the members of a compact flat JSON object of strings (the input
starts right after the opening brace and must end at the closing brace),
with fuel bounding the number of members. -/
def parseMembers : Nat → List Char → Option (List (String × String))
  | 0, _ => none
  | fuel + 1, input =>
      match input with
      | [] => none
      | c :: rest =>
          if c = '"' then
            match parseStringChars rest with
            | none => none
            | some (k, rest1) =>
                match rest1 with
                | c1 :: c2 :: rest2 =>
                    if c1 = ':' ∧ c2 = '"' then
                      match parseStringChars rest2 with
                      | none => none
                      | some (v, rest3) =>
                          match rest3 with
                          | [] => none
                          | c3 :: rest4 =>
                              if c3 = '}' then
                                if rest4 = [] then some [(String.mk k, String.mk v)]
                                else none
                              else if c3 = ',' then
                                (parseMembers fuel rest4).map
                                  (fun ms => (String.mk k, String.mk v) :: ms)
                              else none
                    else none
                | _ => none
          else none

/-- Deserializer modelling Python's `json.loads` on the fragment the
notebook exercises: a compact flat JSON object of strings (the shape of
the stored credential bundle). Malformed input is a `ValueError`, as
`json.JSONDecodeError` subclasses `ValueError`. -/
def json_loads (s : String) : Except PyError (List (String × String)) :=
  match s.data with
  | [] => Except.error (PyError.valueError "Expecting value")
  | c :: rest =>
      if c = '{' then
        match rest with
        | [] => Except.error (PyError.valueError "Expecting property name")
        | c2 :: rest2 =>
            if c2 = '}' ∧ rest2 = [] then Except.ok []
            else
              match parseMembers rest.length rest with
              | some ms => Except.ok ms
              | none => Except.error (PyError.valueError "Invalid JSON")
      else Except.error (PyError.valueError "Expecting value")

/-- One request to the secret store, as issued by the boto3 client the
notebook builds: the service name and region fixed at client construction
plus the `SecretId` passed to `get_secret_value`. -/
structure StoreRequest where
  service_name : String
  region : String
  secretId : String
deriving DecidableEq

/-- The request `get_secret` issues for a given secret name: the service
name is `secretsmanager` and the region is the hardcoded
`region_name = "us-east-1"`; only the secret name varies. -/
def storeRequest (secret_name : String) : StoreRequest :=
  { service_name := "secretsmanager", region := "us-east-1", secretId := secret_name }

/-- Result of a `get_secret` call: the store requests it issued and the
returned bundle or the raised exception. -/
structure GetSecretResult where
  requests : List StoreRequest
  result : Except PyError (List (String × String))

/-- The notebook's `except ClientError as e: raise e` clause. When the
store call raises, Python evaluates the name `ClientError` to match the
handler; the notebook never imports it, so that evaluation itself raises
`NameError` and the original exception is replaced. Were the name bound,
the original exception would propagate unchanged (re-raised when it is a
`ClientError`, uncaught otherwise). -/
def raiseInExcept (e : PyError) : PyError :=
  if nameDefined "ClientError" then e else PyError.nameError "ClientError"

/-- Embedding of the notebook's `get_secret(secret_name)`: build a
Secrets Manager client for the hardcoded region, call `get_secret_value`,
run the except clause on failure, then take the `SecretString` field of
the response and `json.loads` it. The store is a parameter mapping a
request to a response dict or a raised exception. -/
def get_secret (store : StoreRequest → Except PyError (List (String × String)))
    (secret_name : String) : GetSecretResult :=
  let req := storeRequest secret_name
  match store req with
  | Except.error e => { requests := [req], result := Except.error (raiseInExcept e) }
  | Except.ok get_secret_value_response =>
      match dictGet get_secret_value_response "SecretString" with
      | Except.error e => { requests := [req], result := Except.error e }
      | Except.ok secret => { requests := [req], result := json_loads secret }

/-- The OpenAI client object constructed in the notebook, holding the api
key it was given. -/
structure OpenAIClient where
  api_key : String
deriving DecidableEq

/-- Embedding of the notebook line
`client = OpenAI(api_key= get_secret('openai')['api_key'])`:
resolve the secret named `openai`, subscript the bundle at `api_key`
(a `KeyError` when absent), and construct the client from the value. -/
def client_init (store : StoreRequest → Except PyError (List (String × String))) :
    Except PyError OpenAIClient :=
  match (get_secret store "openai").result with
  | Except.error e => Except.error e
  | Except.ok bundle =>
      match dictGet bundle "api_key" with
      | Except.error e => Except.error e
      | Except.ok key => Except.ok { api_key := key }

/-- One role-tagged message of a chat request, as built by
`messages = [{"role": "user", "content": prompt}]`. -/
structure Message where
  role : String
  content : String
deriving DecidableEq

/-- One request to the chat completions endpoint: the keyword arguments
of `client.chat.completions.create`. The temperature only ever takes the
value `0` in the notebook and is modelled as a natural number. -/
structure ChatRequest where
  model : String
  messages : List Message
  temperature : Nat
deriving DecidableEq

/-- The token-usage accounting record of a chat response. -/
structure CompletionUsage where
  prompt_tokens : Nat
  completion_tokens : Nat
  total_tokens : Nat
deriving DecidableEq

/-- One choice of a chat response, carrying its message. -/
structure Choice where
  message : Message
deriving DecidableEq

/-- A successful chat-completions response: the list of choices and the
usage record. -/
structure ChatResponse where
  choices : List Choice
  usage : CompletionUsage
deriving DecidableEq

/-- Result of an `openai_gpt_help` call: the endpoint requests it issued,
the usage record it bound and passed to `pprint` (none when the endpoint
call raised first), and the returned string or the raised exception. -/
structure GptHelpResult where
  requests : List ChatRequest
  printedUsage : Option CompletionUsage
  result : Except PyError String

/-- The request `openai_gpt_help` issues for a given prompt: model
`gpt-4o`, a single user-role message whose content is the prompt, and
temperature `0`. -/
def gptRequest (prompt : String) : ChatRequest :=
  { model := "gpt-4o"
    messages := [{ role := "user", content := prompt }]
    temperature := 0 }

/-- Embedding of the notebook's `openai_gpt_help(prompt)`: build the
message list, call `client.chat.completions.create` once, bind the usage
record and `pprint` it, then return `response.choices[0].message.content`
(list subscripting raises `IndexError` on an empty choices list). The
endpoint is a parameter mapping a request to a response or a raised
exception. -/
def openai_gpt_help (endpoint : ChatRequest → Except PyError ChatResponse)
    (prompt : String) : GptHelpResult :=
  let req := gptRequest prompt
  match endpoint req with
  | Except.error e => { requests := [req], printedUsage := none, result := Except.error e }
  | Except.ok response =>
      let token_usage := response.usage
      match response.choices with
      | [] =>
          { requests := [req], printedUsage := some token_usage
            result := Except.error (PyError.indexError "list index out of range") }
      | choice0 :: _ =>
          { requests := [req], printedUsage := some token_usage
            result := Except.ok choice0.message.content }

/-- Stub response used in the end-to-end scenario: text `Hello!` with
usage 5/2/7. -/
def helloResp : ChatResponse :=
  { choices := [{ message := { role := "assistant", content := "Hello!" } }]
    usage := { prompt_tokens := 5, completion_tokens := 2, total_tokens := 7 } }

/-- Stub endpoint returning `helloResp` for every request. -/
def stubHello : ChatRequest → Except PyError ChatResponse :=
  fun _ => Except.ok helloResp

/-- Stub response with an empty choices list. -/
def noChoicesResp : ChatResponse :=
  { choices := []
    usage := { prompt_tokens := 5, completion_tokens := 0, total_tokens := 5 } }

/-- Stub endpoint returning a response with no choices. -/
def stubNoChoices : ChatRequest → Except PyError ChatResponse :=
  fun _ => Except.ok noChoicesResp

/-- Stub endpoint raising an API error for every request. -/
def stubApiFail : ChatRequest → Except PyError ChatResponse :=
  fun _ => Except.error (PyError.apiError "AuthenticationError" "Incorrect API key provided")

/-- Stub secret store raising an authorization error for every request. -/
def authFailStore : StoreRequest → Except PyError (List (String × String)) :=
  fun _ => Except.error
    (PyError.clientError "AccessDeniedException" "not authorized to perform GetSecretValue")

/-- Stub secret store returning a serialized bundle that lacks the
`api_key` field. -/
def stubStoreNoKey : StoreRequest → Except PyError (List (String × String)) :=
  fun _ => Except.ok [("SecretString", json_dumps [("user_key", "abc")])]

/-- Stub secret store returning a response dict with an extra field and a
serialized bundle holding an `api_key`. -/
def stubStoreGood : StoreRequest → Except PyError (List (String × String)) :=
  fun _ => Except.ok
    [("Name", "openai"), ("SecretString", json_dumps [("api_key", "sk-test-123")])]

/-- Parsing a serialized string body recovers the original characters and
leaves the rest of the input untouched. -/
theorem parseStringChars_escape (s : List Char) (rest : List Char) :
    parseStringChars (escapeChars s ++ '"' :: rest) = some (s, rest) := by
  induction s with
  | nil => simp [escapeChars, parseStringChars]
  | cons c cs ih =>
    by_cases h : c = '"' ∨ c = '\\'
    · simp [escapeChars, h, parseStringChars, ih]
    · push_neg at h
      simp [escapeChars, h.1, h.2, parseStringChars, ih]

/-- The serialized members of a bundle are at least as many characters as
the bundle has members. -/
theorem length_le_dumpMembers (b : List (String × String)) :
    b.length ≤ (dumpMembers b).length := by
  induction b with
  | nil => simp [dumpMembers]
  | cons kv rest ih =>
    cases rest with
    | nil => simp [dumpMembers, dumpPairChars]
    | cons kv2 r2 =>
      simp only [dumpMembers, dumpPairChars] at *
      simp only [List.length_append, List.length_cons] at *
      omega

/-- With enough fuel, parsing the serialized members of a nonempty bundle
recovers the bundle. -/
theorem parseMembers_dumpMembers (b : List (String × String)) :
    ∀ fuel : Nat, b ≠ [] → b.length ≤ fuel →
      parseMembers fuel (dumpMembers b) = some b := by
  induction b with
  | nil => intro fuel h _; exact absurd rfl h
  | cons kv rest ih =>
    intro fuel _ hlen
    cases fuel with
    | zero => simp at hlen
    | succ f =>
      cases rest with
      | nil =>
        simp [dumpMembers, dumpPairChars, parseMembers, parseStringChars_escape,
          List.append_assoc]
      | cons kv2 r2 =>
        have hr : parseMembers f (dumpMembers (kv2 :: r2)) = some (kv2 :: r2) := by
          apply ih
          · exact List.cons_ne_nil kv2 r2
          · simp only [List.length_cons] at hlen ⊢; omega
        simp [dumpMembers, dumpPairChars, parseMembers, parseStringChars_escape,
          List.append_assoc, hr]

/-- The serialized members of a nonempty bundle start with a quote. -/
theorem dumpMembers_cons_head (kv : String × String) (rest : List (String × String)) :
    ∃ m, dumpMembers (kv :: rest) = '"' :: m := by
  cases rest with
  | nil => exact ⟨_, rfl⟩
  | cons kv2 r2 => exact ⟨_, rfl⟩

/-- Unfolding of `json_loads` on an object whose first member starts with
a quote. -/
theorem json_loads_quote_member (m : List Char) :
    json_loads (String.mk ('{' :: '"' :: m)) =
      match parseMembers ('"' :: m).length ('"' :: m) with
      | some ms => Except.ok ms
      | none => Except.error (PyError.valueError "Invalid JSON") := rfl

/-- Round trip: deserializing a serialized flat string bundle recovers the
bundle exactly. -/
theorem json_loads_dumps (b : List (String × String)) :
    json_loads (json_dumps b) = Except.ok b := by
  cases b with
  | nil => rfl
  | cons kv rest =>
    obtain ⟨m, hm⟩ := dumpMembers_cons_head kv rest
    have h1 : json_dumps (kv :: rest) = String.mk ('{' :: '"' :: m) := by
      unfold json_dumps; rw [hm]
    rw [h1, json_loads_quote_member, ← hm,
      parseMembers_dumpMembers (kv :: rest) _ (List.cons_ne_nil kv rest)
        (length_le_dumpMembers (kv :: rest))]

/-- Looking up the head key of a string dict yields its value. -/
theorem dictGet_head (k v : String) (rest : List (String × String)) :
    dictGet ((k, v) :: rest) k = Except.ok v := by
  simp [dictGet, List.lookup]

/-- Subscripting a dict at an absent key raises `KeyError`. -/
theorem dictGet_miss (d : List (String × String)) (k : String)
    (h : d.lookup k = none) : dictGet d k = Except.error (PyError.keyError k) := by
  simp [dictGet, h]

/-- C1: the spec says any error raised by the secret store call inside
`get_secret` propagates unchanged to the caller; in the code the except
clause references the name `ClientError`, which the notebook never
imports, so a store call that raises an authorization error makes
`get_secret` raise `NameError` for that unbound name instead of the
original error: the original error is replaced, not propagated. -/
theorem get_secret_auth_error_replaced :
    (get_secret authFailStore "openai").result =
      Except.error (PyError.nameError "ClientError") ∧
    (get_secret authFailStore "openai").result ≠
      Except.error (PyError.clientError "AccessDeniedException"
        "not authorized to perform GetSecretValue") := by
  refine ⟨rfl, ?_⟩
  intro h
  rw [show (get_secret authFailStore "openai").result =
      Except.error (PyError.nameError "ClientError") from rfl] at h
  exact PyError.noConfusion (Except.error.inj h)

/-- C2: when the resolved bundle lacks the key `api_key`, the
client-initialization line fails with a `KeyError` rather than producing
a default value. -/
theorem client_init_missing_key
    (store : StoreRequest → Except PyError (List (String × String)))
    (b : List (String × String))
    (hstore : store (storeRequest "openai") =
      Except.ok [("SecretString", json_dumps b)])
    (hmiss : b.lookup "api_key" = none) :
    client_init store = Except.error (PyError.keyError "api_key") := by
  unfold client_init
  simp only [get_secret, hstore, dictGet_head, json_loads_dumps,
    dictGet_miss b "api_key" hmiss]

/-- Witness for C2 at a concrete bundle lacking `api_key`. -/
theorem client_init_missing_key_witness :
    stubStoreNoKey (storeRequest "openai") =
      Except.ok [("SecretString", json_dumps [("user_key", "abc")])] ∧
    ([("user_key", "abc")] : List (String × String)).lookup "api_key" = none ∧
    client_init stubStoreNoKey = Except.error (PyError.keyError "api_key") :=
  ⟨rfl, rfl, client_init_missing_key stubStoreNoKey [("user_key", "abc")] rfl rfl⟩

/-- C3: with a stubbed endpoint returning text `Hello!` and usage 5/2/7,
`openai_gpt_help` on prompt `Say hello.` (sent with model `gpt-4o` and
temperature 0) returns exactly `Hello!` and surfaces usage counts
5/2/7. -/
theorem openai_gpt_help_hello_scenario :
    (openai_gpt_help stubHello "Say hello.").result = Except.ok "Hello!" ∧
    (openai_gpt_help stubHello "Say hello.").printedUsage =
      some { prompt_tokens := 5, completion_tokens := 2, total_tokens := 7 } ∧
    (openai_gpt_help stubHello "Say hello.").requests =
      [{ model := "gpt-4o"
         messages := [{ role := "user", content := "Say hello." }]
         temperature := 0 }] :=
  ⟨rfl, rfl, rfl⟩

/-- C4: when the store responds with a dict whose `SecretString` field
holds a serialized bundle, `get_secret` returns exactly the deserialized
bundle — no transformation beyond deserialization — and any key present
in the bundle still maps to its stored value. -/
theorem get_secret_returns_deserialized_bundle
    (store : StoreRequest → Except PyError (List (String × String)))
    (secret_name : String) (resp b : List (String × String)) (k v : String)
    (hstore : store (storeRequest secret_name) = Except.ok resp)
    (hss : resp.lookup "SecretString" = some (json_dumps b))
    (hk : b.lookup k = some v) :
    (get_secret store secret_name).result = Except.ok b ∧
    dictGet b k = Except.ok v := by
  constructor
  · simp only [get_secret, hstore]
    simp only [dictGet, hss]
    exact json_loads_dumps b
  · simp [dictGet, hk]

/-- Witness for C4 at a concrete store response and bundle. -/
theorem get_secret_returns_deserialized_bundle_witness :
    stubStoreGood (storeRequest "openai") =
      Except.ok [("Name", "openai"),
        ("SecretString", json_dumps [("api_key", "sk-test-123")])] ∧
    ([("Name", "openai"),
        ("SecretString", json_dumps [("api_key", "sk-test-123")])] :
        List (String × String)).lookup "SecretString" =
      some (json_dumps [("api_key", "sk-test-123")]) ∧
    ([("api_key", "sk-test-123")] : List (String × String)).lookup "api_key" =
      some "sk-test-123" ∧
    ((get_secret stubStoreGood "openai").result =
        Except.ok [("api_key", "sk-test-123")] ∧
      dictGet [("api_key", "sk-test-123")] "api_key" = Except.ok "sk-test-123") :=
  ⟨rfl, rfl, rfl,
    get_secret_returns_deserialized_bundle stubStoreGood "openai" _ _ "api_key"
      "sk-test-123" rfl rfl rfl⟩

/-- C5: for every endpoint and prompt, `openai_gpt_help` issues exactly
one request, carrying the model `gpt-4o`, a single user-role message
whose content is exactly the prompt, and temperature 0. -/
theorem openai_gpt_help_single_request
    (endpoint : ChatRequest → Except PyError ChatResponse) (prompt : String) :
    (openai_gpt_help endpoint prompt).requests =
      [{ model := "gpt-4o"
         messages := [{ role := "user", content := prompt }]
         temperature := 0 }] := by
  simp only [openai_gpt_help]
  cases endpoint (gptRequest prompt) with
  | error e => rfl
  | ok response =>
    cases response with
    | mk choices usage => cases choices <;> rfl

/-- C6: with a fixed endpoint, two invocations with equal prompts return
identical text and surface identical usage counts; the requester depends
on nothing but its input and the endpoint's response. -/
theorem openai_gpt_help_deterministic
    (endpoint : ChatRequest → Except PyError ChatResponse)
    (p1 p2 : String) (h : p1 = p2) :
    (openai_gpt_help endpoint p1).result = (openai_gpt_help endpoint p2).result ∧
    (openai_gpt_help endpoint p1).printedUsage =
      (openai_gpt_help endpoint p2).printedUsage := by
  subst h; exact ⟨rfl, rfl⟩

/-- Witness for C6 at the stubbed endpoint and a concrete prompt. -/
theorem openai_gpt_help_deterministic_witness :
    ("Say hello." : String) = "Say hello." ∧
    (openai_gpt_help stubHello "Say hello.").result =
      (openai_gpt_help stubHello "Say hello.").result :=
  ⟨rfl, (openai_gpt_help_deterministic stubHello "Say hello." "Say hello." rfl).1⟩

/-- The stubbed endpoint returns a well-formed usage record on every
request. -/
theorem stubHello_usage_wf :
    ∀ req resp, stubHello req = Except.ok resp →
      resp.usage.total_tokens =
        resp.usage.prompt_tokens + resp.usage.completion_tokens := by
  intro req resp h
  have h2 : helloResp = resp := Except.ok.inj h
  rw [← h2]
  rfl

/-- C7: the usage record surfaced by `openai_gpt_help` is the endpoint's
usage record unchanged, so whenever the endpoint's accounting satisfies
total = prompt + completion, every surfaced record does too. -/
theorem openai_gpt_help_usage_total
    (endpoint : ChatRequest → Except PyError ChatResponse) (prompt : String)
    (u : CompletionUsage)
    (hend : ∀ req resp, endpoint req = Except.ok resp →
      resp.usage.total_tokens =
        resp.usage.prompt_tokens + resp.usage.completion_tokens)
    (hu : (openai_gpt_help endpoint prompt).printedUsage = some u) :
    u.total_tokens = u.prompt_tokens + u.completion_tokens := by
  simp only [openai_gpt_help] at hu
  cases hcall : endpoint (gptRequest prompt) with
  | error e => rw [hcall] at hu; simp at hu
  | ok response =>
    rw [hcall] at hu
    have hwf := hend _ _ hcall
    cases response with
    | mk choices usage =>
      cases choices with
      | nil =>
        simp at hu
        rw [← hu]
        exact hwf
      | cons c cs =>
        simp at hu
        rw [← hu]
        exact hwf

/-- Witness for C7 at the stubbed endpoint with usage 5/2/7. -/
theorem openai_gpt_help_usage_total_witness :
    (∀ req resp, stubHello req = Except.ok resp →
      resp.usage.total_tokens =
        resp.usage.prompt_tokens + resp.usage.completion_tokens) ∧
    (openai_gpt_help stubHello "Say hello.").printedUsage = some helloResp.usage ∧
    helloResp.usage.total_tokens =
      helloResp.usage.prompt_tokens + helloResp.usage.completion_tokens :=
  ⟨stubHello_usage_wf, rfl,
    openai_gpt_help_usage_total stubHello "Say hello." helloResp.usage
      stubHello_usage_wf rfl⟩

/-- C8: when the endpoint call raises, the error propagates unchanged to
the caller and nothing else is observable: the usage record is not
printed and no value is returned. -/
theorem openai_gpt_help_error_propagation
    (endpoint : ChatRequest → Except PyError ChatResponse)
    (prompt : String) (e : PyError)
    (h : endpoint (gptRequest prompt) = Except.error e) :
    openai_gpt_help endpoint prompt =
      { requests := [gptRequest prompt], printedUsage := none,
        result := Except.error e } := by
  simp only [openai_gpt_help, h]

/-- Witness for C8 at a stubbed endpoint raising an API error. -/
theorem openai_gpt_help_error_propagation_witness :
    stubApiFail (gptRequest "Say hello.") =
      Except.error (PyError.apiError "AuthenticationError"
        "Incorrect API key provided") ∧
    openai_gpt_help stubApiFail "Say hello." =
      { requests := [gptRequest "Say hello."], printedUsage := none,
        result := Except.error (PyError.apiError "AuthenticationError"
          "Incorrect API key provided") } :=
  ⟨rfl, openai_gpt_help_error_propagation stubApiFail "Say hello." _ rfl⟩

/-- C9: every `get_secret` call issues exactly one store request, naming
the `secretsmanager` service in the hardcoded region `us-east-1`; the
secret name is the only varying part. -/
theorem get_secret_fixed_region
    (store : StoreRequest → Except PyError (List (String × String)))
    (secret_name : String) :
    (get_secret store secret_name).requests =
      [{ service_name := "secretsmanager", region := "us-east-1",
         secretId := secret_name }] := by
  cases hst : store (storeRequest secret_name) with
  | error e =>
    simp only [get_secret, hst]
    rfl
  | ok resp =>
    simp only [get_secret, hst]
    cases hdg : dictGet resp "SecretString" with
    | error e => rfl
    | ok s => rfl

/-- C10: on a successful response the returned value is exactly the
message content of the first choice (further choices and the usage record
are not part of it); on an empty choices list the subscript raises an
index error and nothing is returned. -/
theorem openai_gpt_help_first_choice
    (endpoint : ChatRequest → Except PyError ChatResponse)
    (prompt : String) (resp : ChatResponse)
    (h : endpoint (gptRequest prompt) = Except.ok resp) :
    (∀ c cs, resp.choices = c :: cs →
      (openai_gpt_help endpoint prompt).result = Except.ok c.message.content) ∧
    (resp.choices = [] →
      (openai_gpt_help endpoint prompt).result =
        Except.error (PyError.indexError "list index out of range")) := by
  constructor
  · intro c cs hc
    simp only [openai_gpt_help, h, hc]
  · intro hc
    simp only [openai_gpt_help, h, hc]

/-- Witness for C10 covering both a nonempty and an empty choices list. -/
theorem openai_gpt_help_first_choice_witness :
    stubHello (gptRequest "Hi") = Except.ok helloResp ∧
    (openai_gpt_help stubHello "Hi").result = Except.ok "Hello!" ∧
    stubNoChoices (gptRequest "Hi") = Except.ok noChoicesResp ∧
    (openai_gpt_help stubNoChoices "Hi").result =
      Except.error (PyError.indexError "list index out of range") :=
  ⟨rfl,
    (openai_gpt_help_first_choice stubHello "Hi" helloResp rfl).1
      { message := { role := "assistant", content := "Hello!" } } [] rfl,
    rfl,
    (openai_gpt_help_first_choice stubNoChoices "Hi" noChoicesResp rfl).2 rfl⟩
